import Mathlib

/-!
Verification of the sonar-autofixer core against its natural-language
specification.  The TypeScript sources under `src/` are shallowly embedded:
strings are lists of characters, `URLSearchParams` becomes an association
list with `set` semantics, fallible code returns `Except`, and the network
is abstracted as an environment record describing each response.
-/

set_option maxRecDepth 4000

/-- JavaScript strings are modelled as lists of characters. -/
abbrev Str := List Char

/-- Shorthand turning a Lean string literal into the `Str` model. -/
def S (s : String) : Str := s.data

/-- JavaScript truthiness of an optional string: `undefined`/`null` and the
empty string are falsy, every other string is truthy. -/
def isTruthy : Option Str → Bool
  | none => false
  | some s => !s.isEmpty

/-- JavaScript truthiness of a plain string value. -/
def strTruthy (s : Str) : Bool := !s.isEmpty

/-- `p` is a prefix of `s` (character-wise, exact case). -/
def startsWithC : Str → Str → Bool
  | [], _ => true
  | _ :: _, [] => false
  | p :: ps, c :: cs => if p = c then startsWithC ps cs else false

/-- Substring test, the model of JavaScript `String.prototype.includes`. -/
def strContains : Str → Str → Bool
  | [], pat => pat.isEmpty
  | c :: rest, pat => startsWithC pat (c :: rest) || strContains rest pat

/-- Suffix test on modelled strings. -/
def strEndsWith (s suffix : Str) : Bool := startsWithC suffix.reverse s.reverse

theorem startsWithC_refl (s : Str) : startsWithC s s = true := by
  induction s with
  | nil => rfl
  | cons c cs ih => simp [startsWithC, ih]

theorem strContains_append_right (a b : Str) : strContains (a ++ b) b = true := by
  induction a with
  | nil =>
    cases b with
    | nil => rfl
    | cons c cs => simp [strContains, startsWithC_refl]
  | cons x xs ih =>
    simp [strContains, ih]

/-!
## `SonarUrlBuilder.normalizeUrl` (src/sonar/sonar-url-builder.ts, 127-135)

```ts
static normalizeUrl(baseUrl: string): string {
  let url = baseUrl;
  if (!url.includes("/api/issues/search")) {
    url = url.replace(/\/project\/issues[^/]*$/, "").replace(/\/$/, "");
    url = url.replace(/\/api\/issues$/, "");
    url = `${url}/api/issues/search`;
  }
  return url;
}
```
-/

/-- The canonical search route appended by `normalizeUrl`. -/
def apiSearchPath : Str := S "/api/issues/search"

/-- Model of `url.replace(/\/project\/issues[^\/]*$/, "")`: strip a suffix of
the shape `/project/issues` followed by slash-free characters, when present.
The reversed string is examined: its maximal slash-free prefix must end (in
original order, begin) with the reversal of `issues`, and the characters after
that prefix must continue with the reversal of `/project/`. -/
def stripProjectIssuesSuffix (s : Str) : Str :=
  let r := s.reverse
  let w := r.takeWhile (fun c => !(c = '/'))
  let rest := r.drop w.length
  if strEndsWith w (S "seussi") && startsWithC (S "/tcejorp/") rest then
    (r.drop (w.length + 9)).reverse
  else
    s

/-- Model of `url.replace(/\/$/, "")`: drop one trailing slash. -/
def stripTrailingSlash (s : Str) : Str :=
  if s.getLast? = some '/' then s.dropLast else s

/-- Model of `url.replace(/\/api\/issues$/, "")`: drop a trailing
`/api/issues`. -/
def stripApiIssues (s : Str) : Str :=
  if strEndsWith s (S "/api/issues") then s.take (s.length - 11) else s

/-- Model of `SonarUrlBuilder.normalizeUrl`. -/
def normalizeUrl (s : Str) : Str :=
  if strContains s apiSearchPath then s
  else stripApiIssues (stripTrailingSlash (stripProjectIssuesSuffix s)) ++ apiSearchPath

theorem normalizeUrl_contains (s : Str) :
    strContains (normalizeUrl s) apiSearchPath = true := by
  unfold normalizeUrl
  by_cases h : strContains s apiSearchPath = true
  · simp [h]
  · simp [h, strContains_append_right]

/-- C3: `normalizeUrl` is idempotent, and canonicalizes a web UI link, an
API-root link, and an already-normalized endpoint to the
`/api/issues/search` route. -/
theorem normalizeUrl_idempotent :
    (∀ s : Str, normalizeUrl (normalizeUrl s) = normalizeUrl s) ∧
    normalizeUrl (S "https://sonar.example.com/project/issues?id=p") =
      S "https://sonar.example.com/api/issues/search" ∧
    normalizeUrl (S "https://sonar.example.com/api/issues") =
      S "https://sonar.example.com/api/issues/search" ∧
    normalizeUrl (S "https://sonar.example.com/api/issues/search") =
      S "https://sonar.example.com/api/issues/search" := by
  refine ⟨fun s => ?_, by decide, by decide, by decide⟩
  have h := normalizeUrl_contains s
  set y := normalizeUrl s with hy
  unfold normalizeUrl
  simp [h]

/-!
## `SonarUrlBuilder` (src/sonar/sonar-url-builder.ts)

`URLSearchParams` is modelled as an ordered association list with `set`
semantics (replace in place when the key exists, else append; the keys built
here are pairwise distinct, so duplicate handling never arises).  `toString`
serializes each pair with the `application/x-www-form-urlencoded` encoder.
-/

/-- Ordered key-value list modelling `URLSearchParams`. -/
abbrev ParamList := List (Str × Str)

/-- `URLSearchParams.set`: replace the value in place, or append. -/
def setParam : ParamList → Str → Str → ParamList
  | [], k, v => [(k, v)]
  | (k', v') :: rest, k, v =>
    if k' = k then (k, v) :: rest else (k', v') :: setParam rest k v

/-- First value recorded for a key, the model of `URLSearchParams.get`. -/
def getParam : ParamList → Str → Option Str
  | [], _ => none
  | (k', v') :: rest, k => if k' = k then some v' else getParam rest k

/-- Conditional `set`, mirroring the `if (x) params.set(...)` pattern. -/
def setIf (b : Bool) (ps : ParamList) (k v : Str) : ParamList :=
  if b then setParam ps k v else ps

/-- UTF-8 bytes of a character. -/
def utf8Bytes (c : Char) : List Nat :=
  let n := c.toNat
  if n < 0x80 then [n]
  else if n < 0x800 then [0xC0 + n / 64, 0x80 + n % 64]
  else if n < 0x10000 then [0xE0 + n / 4096, 0x80 + n / 64 % 64, 0x80 + n % 64]
  else [0xF0 + n / 262144, 0x80 + n / 4096 % 64, 0x80 + n / 64 % 64, 0x80 + n % 64]

/-- Upper-case hexadecimal digit. -/
def hexDigit (n : Nat) : Char :=
  if n < 10 then Char.ofNat ('0'.toNat + n) else Char.ofNat ('A'.toNat + (n - 10))

/-- Characters the urlencoded serializer leaves unescaped. -/
def urlUnreserved (c : Char) : Bool :=
  ('0' ≤ c && c ≤ '9') || ('A' ≤ c && c ≤ 'Z') || ('a' ≤ c && c ≤ 'z') ||
    c = '*' || c = '-' || c = '.' || c = '_'

/-- `application/x-www-form-urlencoded` encoding of one character. -/
def encodeChar (c : Char) : Str :=
  if urlUnreserved c then [c]
  else if c = ' ' then ['+']
  else (utf8Bytes c).foldr (fun b acc => '%' :: hexDigit (b / 16) :: hexDigit (b % 16) :: acc) []

/-- Urlencoded encoding of a whole string. -/
def encodeStr (s : Str) : Str := s.foldr (fun c acc => encodeChar c ++ acc) []

/-- `URLSearchParams.toString`. -/
def serializeParams (ps : ParamList) : Str :=
  match ps with
  | [] => []
  | p :: rest =>
    rest.foldl (fun acc q => acc ++ '&' :: (encodeStr q.1 ++ '=' :: encodeStr q.2))
      (encodeStr p.1 ++ '=' :: encodeStr p.2)

/-- `UrlBuilderConfig` (src/sonar/sonar-url-builder.ts, 4-11). -/
structure UrlBuilderConfig where
  publicSonar : Bool
  sonarComponentKeys : Option Str
  sonarOrganization : Option Str
  sonarProjectKey : Option Str
  gitOrganization : Option Str
  repoName : Str

/-- `UrlBuildOptions` (src/sonar/sonar-url-builder.ts, 16-19). -/
structure UrlBuildOptions where
  branch : Option Str := none
  pullRequest : Option Str := none

/-- `SonarSetupConfig` (src/sonar/sonar-url-builder.ts, 24-30). -/
structure SonarSetupConfig where
  isSonarCloud : Bool
  componentKeys : Option Str
  organization : Option Str
  component : Str
  timeZone : Option Str

/-- JavaScript `a || b` on an optional string with a string fallback. -/
def orTruthy (a : Option Str) (b : Str) : Str :=
  if isTruthy a then a.getD [] else b

/-- The component identifier computed by the constructor: the project key if
truthy else the repo name, with the git organization joined by `/` in front
when truthy. -/
def builderComponent (cfg : UrlBuilderConfig) : Str :=
  if isTruthy cfg.gitOrganization then
    cfg.gitOrganization.getD [] ++ '/' :: orTruthy cfg.sonarProjectKey cfg.repoName
  else orTruthy cfg.sonarProjectKey cfg.repoName

/-- The `SonarUrlBuilder` constructor (src/sonar/sonar-url-builder.ts, 45-62).
Note the constructor never assigns `timeZone`, so the field stays absent. -/
def mkSetupConfig (cfg : UrlBuilderConfig) : SonarSetupConfig :=
  { isSonarCloud :=
      cfg.publicSonar && isTruthy cfg.sonarComponentKeys && isTruthy cfg.sonarOrganization
    componentKeys := cfg.sonarComponentKeys
    organization := cfg.sonarOrganization
    component := builderComponent cfg
    timeZone := none }

/-- The parameters every request starts from:
`new URLSearchParams({ s, ps, additionalFields })`. -/
def baseParams : ParamList :=
  [(S "s", S "FILE_LINE"), (S "ps", S "100"), (S "additionalFields", S "_all")]

/-- `SonarUrlBuilder.buildBaseParams` (src/sonar/sonar-url-builder.ts, 68-101). -/
def buildBaseParams (sc : SonarSetupConfig) : ParamList :=
  if sc.isSonarCloud then
    setIf (isTruthy sc.organization)
      (setIf (isTruthy sc.componentKeys)
        (setParam (setParam baseParams (S "issueStatuses") (S "OPEN,CONFIRMED"))
          (S "facets") (S "impactSoftwareQualities,impactSeverities"))
        (S "componentKeys") (sc.componentKeys.getD []))
      (S "organization") (sc.organization.getD [])
  else
    setIf (isTruthy sc.timeZone)
      (setIf (strTruthy sc.component)
        (setParam
          (setParam (setParam baseParams (S "inNewCodePeriod") (S "true"))
            (S "issueStatuses") (S "CONFIRMED,OPEN"))
          (S "facets")
          (S "cleanCodeAttributeCategories,impactSoftwareQualities,severities,types,impactSeverities,codeVariants"))
        (S "components") sc.component)
      (S "timeZone") (sc.timeZone.getD [])

/-- The query parameters assembled by `SonarUrlBuilder.buildUrl`
(src/sonar/sonar-url-builder.ts, 108-119). -/
def buildUrlParams (sc : SonarSetupConfig) (opts : UrlBuildOptions) : ParamList :=
  setIf (isTruthy opts.pullRequest)
    (setIf (isTruthy opts.branch) (buildBaseParams sc) (S "branch") (opts.branch.getD []))
    (S "pullRequest") (opts.pullRequest.getD [])

/-- `SonarUrlBuilder.buildUrl`: the complete URL string. -/
def buildUrl (baseUrl : Str) (sc : SonarSetupConfig) (opts : UrlBuildOptions) : Str :=
  baseUrl ++ '?' :: serializeParams (buildUrlParams sc opts)

/-- Splitting a comma-separated parameter value into its entries. -/
def splitOnComma : Str → List Str
  | [] => [[]]
  | c :: rest =>
    if c = ',' then [] :: splitOnComma rest
    else
      match splitOnComma rest with
      | [] => [[c]]
      | h :: t => (c :: h) :: t

theorem getParam_setParam_self (ps : ParamList) (k v : Str) :
    getParam (setParam ps k v) k = some v := by
  induction ps with
  | nil => simp [setParam, getParam]
  | cons p rest ih =>
    by_cases h : p.1 = k
    · simp [setParam, getParam, h]
    · simp [setParam, getParam, h, ih]

theorem getParam_setParam_ne {k' k : Str} (h : ¬ k' = k) (ps : ParamList) (v : Str) :
    getParam (setParam ps k' v) k = getParam ps k := by
  induction ps with
  | nil => simp [setParam, getParam, h]
  | cons p rest ih =>
    by_cases hp : p.1 = k'
    · simp [setParam, getParam, hp, h]
    · simp [setParam, getParam, hp, ih]

theorem getParam_setIf_ne {k' k : Str} (h : ¬ k' = k) (b : Bool) (ps : ParamList) (v : Str) :
    getParam (setIf b ps k' v) k = getParam ps k := by
  cases b <;> simp [setIf, getParam_setParam_ne h]

theorem setIf_false (ps : ParamList) (k v : Str) : setIf false ps k v = ps := rfl

theorem setIf_true (ps : ParamList) (k v : Str) : setIf true ps k v = setParam ps k v := rfl

theorem getParam_buildBaseParams_branch (sc : SonarSetupConfig) :
    getParam (buildBaseParams sc) (S "branch") = none := by
  unfold buildBaseParams
  cases hc : sc.isSonarCloud
  · rw [if_neg (by simp)]
    rw [getParam_setIf_ne (by decide), getParam_setIf_ne (by decide),
      getParam_setParam_ne (by decide), getParam_setParam_ne (by decide),
      getParam_setParam_ne (by decide)]
    decide
  · rw [if_pos rfl]
    rw [getParam_setIf_ne (by decide), getParam_setIf_ne (by decide),
      getParam_setParam_ne (by decide), getParam_setParam_ne (by decide)]
    decide

theorem getParam_buildBaseParams_pullRequest (sc : SonarSetupConfig) :
    getParam (buildBaseParams sc) (S "pullRequest") = none := by
  unfold buildBaseParams
  cases hc : sc.isSonarCloud
  · rw [if_neg (by simp)]
    rw [getParam_setIf_ne (by decide), getParam_setIf_ne (by decide),
      getParam_setParam_ne (by decide), getParam_setParam_ne (by decide),
      getParam_setParam_ne (by decide)]
    decide
  · rw [if_pos rfl]
    rw [getParam_setIf_ne (by decide), getParam_setIf_ne (by decide),
      getParam_setParam_ne (by decide), getParam_setParam_ne (by decide)]
    decide

/-- A private-instance configuration: self-hosted, no public identifiers, a
project key and a git organization. -/
def cfgPrivate : UrlBuilderConfig :=
  { publicSonar := false, sonarComponentKeys := none, sonarOrganization := none,
    sonarProjectKey := some (S "proj"), gitOrganization := some (S "git-org"),
    repoName := S "repo" }

/-- A public multi-tenant configuration with organization and component keys. -/
def cfgPublic : UrlBuilderConfig :=
  { publicSonar := true, sonarComponentKeys := some (S "my-keys"),
    sonarOrganization := some (S "my-org"), sonarProjectKey := some (S "proj"),
    gitOrganization := none, repoName := S "repo" }

/-- A normalized endpoint used for the concrete URL scenarios. -/
def baseEndpoint : Str := S "https://sonar.example.com/api/issues/search"

/-- The URL built for PrivateSelfHosted mode with target PullRequestId "42". -/
def urlPrivatePr42 : Str :=
  buildUrl baseEndpoint (mkSetupConfig cfgPrivate) { pullRequest := some (S "42") }

/-- The URL built for PublicMultiTenant mode with target Branch "main". -/
def urlPublicMain : Str :=
  buildUrl baseEndpoint (mkSetupConfig cfgPublic) { branch := some (S "main") }

/-- C2 counterexample: when the caller passes options carrying both a branch
and a pull request, `buildUrl` sets both query parameters, so the URL contains
both simultaneously, contrary to the claim. -/
theorem buildUrl_both_params_counterexample :
    getParam
        (buildUrlParams (mkSetupConfig cfgPrivate)
          { branch := some (S "b"), pullRequest := some (S "1") })
        (S "branch") = some (S "b") ∧
    getParam
        (buildUrlParams (mkSetupConfig cfgPrivate)
          { branch := some (S "b"), pullRequest := some (S "1") })
        (S "pullRequest") = some (S "1") ∧
    strContains
        (buildUrl baseEndpoint (mkSetupConfig cfgPrivate)
          { branch := some (S "b"), pullRequest := some (S "1") })
        (S "branch=b") = true ∧
    strContains
        (buildUrl baseEndpoint (mkSetupConfig cfgPrivate)
          { branch := some (S "b"), pullRequest := some (S "1") })
        (S "pullRequest=1") = true := by
  decide

/-- C2 amended: whenever at most one of the two build options is truthy —
which is what every call site passes — the parameter set of the produced URL
contains at most one of `branch` and `pullRequest`. -/
theorem buildUrl_single_target_param (sc : SonarSetupConfig) (opts : UrlBuildOptions)
    (h : isTruthy opts.branch = false ∨ isTruthy opts.pullRequest = false) :
    getParam (buildUrlParams sc opts) (S "branch") = none ∨
    getParam (buildUrlParams sc opts) (S "pullRequest") = none := by
  unfold buildUrlParams
  rcases h with h | h
  · left
    rw [getParam_setIf_ne (by decide), h, setIf_false]
    exact getParam_buildBaseParams_branch sc
  · right
    rw [h, setIf_false, getParam_setIf_ne (by decide)]
    exact getParam_buildBaseParams_pullRequest sc

/-- Witness for the amended C2 theorem at a concrete private configuration
with a branch-only option. -/
theorem buildUrl_single_target_param_witness :
    getParam
        (buildUrlParams (mkSetupConfig cfgPrivate) { branch := some (S "main") })
        (S "branch") = none ∨
    getParam
        (buildUrlParams (mkSetupConfig cfgPrivate) { branch := some (S "main") })
        (S "pullRequest") = none :=
  buildUrl_single_target_param (mkSetupConfig cfgPrivate)
    { branch := some (S "main") } (Or.inr (by decide))

/-- C4 counterexample: for the PrivateSelfHosted scenario with target
PullRequestId "42" the built URL carries no timezone parameter at all — the
constructor never assigns `setupConfig.timeZone`, so the `timeZone` branch of
`buildBaseParams` is dead code — refuting the claim's conjunct that the URL
"includes a fixed operational timezone parameter". -/
theorem privatePr42_no_timezone_counterexample :
    strContains urlPrivatePr42 (S "timeZone=") = false ∧
    getParam
        (buildUrlParams (mkSetupConfig cfgPrivate) { pullRequest := some (S "42") })
        (S "timeZone") = none := by
  decide

/-- C4 amended: in PrivateSelfHosted mode with target PullRequestId "42" the
built URL contains `pullRequest=42` and `inNewCodePeriod=true`, does not
contain `organization=`, contains no timezone parameter (the builder never
populates one), and includes a `components` identifier joining the
organization/namespace prefix to the project key with `/`. -/
theorem privatePr42_url_shape :
    strContains urlPrivatePr42 (S "pullRequest=42") = true ∧
    strContains urlPrivatePr42 (S "inNewCodePeriod=true") = true ∧
    strContains urlPrivatePr42 (S "organization=") = false ∧
    strContains urlPrivatePr42 (S "timeZone=") = false ∧
    getParam
        (buildUrlParams (mkSetupConfig cfgPrivate) { pullRequest := some (S "42") })
        (S "components") = some (S "git-org" ++ '/' :: S "proj") ∧
    strContains urlPrivatePr42 (S "components=git-org%2Fproj") = true := by
  decide

/-- C5: in PublicMultiTenant mode with target Branch "main" the built URL
contains `organization=`, `componentKeys=`, `branch=main`, and its
`issueStatuses` filter holds exactly the set containing OPEN and CONFIRMED. -/
theorem publicMain_url_shape :
    strContains urlPublicMain (S "organization=") = true ∧
    strContains urlPublicMain (S "componentKeys=") = true ∧
    strContains urlPublicMain (S "branch=main") = true ∧
    getParam
        (buildUrlParams (mkSetupConfig cfgPublic) { branch := some (S "main") })
        (S "issueStatuses") = some (S "OPEN,CONFIRMED") ∧
    (splitOnComma
        ((getParam
            (buildUrlParams (mkSetupConfig cfgPublic) { branch := some (S "main") })
            (S "issueStatuses")).getD [])).toFinset =
      {S "OPEN", S "CONFIRMED"} := by
  decide

theorem getParam_buildBaseParams_private_core (sc : SonarSetupConfig)
    (hsc : sc.isSonarCloud = false) :
    getParam (buildBaseParams sc) (S "issueStatuses") = some (S "CONFIRMED,OPEN") ∧
    getParam (buildBaseParams sc) (S "inNewCodePeriod") = some (S "true") ∧
    getParam (buildBaseParams sc) (S "componentKeys") = none ∧
    getParam (buildBaseParams sc) (S "organization") = none ∧
    getParam (buildBaseParams sc) (S "components") =
      (if strTruthy sc.component then some sc.component else none) := by
  unfold buildBaseParams
  rw [hsc, if_neg (by simp)]
  refine ⟨?_, ?_, ?_, ?_, ?_⟩
  · rw [getParam_setIf_ne (by decide), getParam_setIf_ne (by decide),
      getParam_setParam_ne (by decide), getParam_setParam_self]
  · rw [getParam_setIf_ne (by decide), getParam_setIf_ne (by decide),
      getParam_setParam_ne (by decide), getParam_setParam_ne (by decide),
      getParam_setParam_self]
  · rw [getParam_setIf_ne (by decide), getParam_setIf_ne (by decide),
      getParam_setParam_ne (by decide), getParam_setParam_ne (by decide),
      getParam_setParam_ne (by decide)]
    decide
  · rw [getParam_setIf_ne (by decide), getParam_setIf_ne (by decide),
      getParam_setParam_ne (by decide), getParam_setParam_ne (by decide),
      getParam_setParam_ne (by decide)]
    decide
  · rw [getParam_setIf_ne (by decide)]
    cases hb : strTruthy sc.component
    · rw [setIf_false, if_neg (by simp), getParam_setParam_ne (by decide),
        getParam_setParam_ne (by decide), getParam_setParam_ne (by decide)]
      decide
    · rw [setIf_true, getParam_setParam_self, if_pos rfl]

/-- C10: every constructed builder — whatever its flags — has
`isSonarCloud = true` exactly when the public flag, the component keys and
the organization are all truthy; and when the public flag is set but one
identifier is missing, every subsequent `buildUrl` silently yields
private-instance-shaped parameters: `issueStatuses` is `CONFIRMED,OPEN`,
`inNewCodePeriod` is `true`, neither `componentKeys` nor `organization`
appears, and `components` carries the joined component identifier whenever
it is nonempty. -/
theorem mkSetupConfig_mode_demotion (cfg : UrlBuilderConfig) (opts : UrlBuildOptions) :
    ((mkSetupConfig cfg).isSonarCloud = true ↔
      (cfg.publicSonar = true ∧ isTruthy cfg.sonarComponentKeys = true ∧
        isTruthy cfg.sonarOrganization = true)) ∧
    (cfg.publicSonar = true →
      (isTruthy cfg.sonarComponentKeys = false ∨ isTruthy cfg.sonarOrganization = false) →
      getParam (buildUrlParams (mkSetupConfig cfg) opts) (S "issueStatuses") =
        some (S "CONFIRMED,OPEN") ∧
      getParam (buildUrlParams (mkSetupConfig cfg) opts) (S "inNewCodePeriod") =
        some (S "true") ∧
      getParam (buildUrlParams (mkSetupConfig cfg) opts) (S "componentKeys") = none ∧
      getParam (buildUrlParams (mkSetupConfig cfg) opts) (S "organization") = none ∧
      getParam (buildUrlParams (mkSetupConfig cfg) opts) (S "components") =
        (if strTruthy (builderComponent cfg) then some (builderComponent cfg)
         else none)) := by
  constructor
  · simp [mkSetupConfig, Bool.and_eq_true, and_assoc]
  · intro _hpub hmiss
    have hsc : (mkSetupConfig cfg).isSonarCloud = false := by
      simp only [mkSetupConfig]
      rcases hmiss with hm | hm <;> simp [hm]
    have hcore := getParam_buildBaseParams_private_core (mkSetupConfig cfg) hsc
    have hcomp : (mkSetupConfig cfg).component = builderComponent cfg := rfl
    refine ⟨?_, ?_, ?_, ?_, ?_⟩
    · unfold buildUrlParams
      rw [getParam_setIf_ne (by decide), getParam_setIf_ne (by decide)]
      exact hcore.1
    · unfold buildUrlParams
      rw [getParam_setIf_ne (by decide), getParam_setIf_ne (by decide)]
      exact hcore.2.1
    · unfold buildUrlParams
      rw [getParam_setIf_ne (by decide), getParam_setIf_ne (by decide)]
      exact hcore.2.2.1
    · unfold buildUrlParams
      rw [getParam_setIf_ne (by decide), getParam_setIf_ne (by decide)]
      exact hcore.2.2.2.1
    · unfold buildUrlParams
      rw [getParam_setIf_ne (by decide), getParam_setIf_ne (by decide)]
      rw [hcore.2.2.2.2, hcomp]

/-- Witness for the mode-demotion theorem: a configuration with the public
flag set but no organization produces the private-instance parameter shape. -/
theorem mkSetupConfig_mode_demotion_witness :
    ((mkSetupConfig
        { publicSonar := true, sonarComponentKeys := some (S "ck"),
          sonarOrganization := none, sonarProjectKey := some (S "proj"),
          gitOrganization := none, repoName := S "repo" }).isSonarCloud = true ↔
      (true = true ∧ isTruthy (some (S "ck")) = true ∧ isTruthy (none : Option Str) = true)) ∧
    getParam
        (buildUrlParams
          (mkSetupConfig
            { publicSonar := true, sonarComponentKeys := some (S "ck"),
              sonarOrganization := none, sonarProjectKey := some (S "proj"),
              gitOrganization := none, repoName := S "repo" })
          { branch := some (S "main") })
        (S "issueStatuses") = some (S "CONFIRMED,OPEN") ∧
    getParam
        (buildUrlParams
          (mkSetupConfig
            { publicSonar := true, sonarComponentKeys := some (S "ck"),
              sonarOrganization := none, sonarProjectKey := some (S "proj"),
              gitOrganization := none, repoName := S "repo" })
          { branch := some (S "main") })
        (S "inNewCodePeriod") = some (S "true") ∧
    getParam
        (buildUrlParams
          (mkSetupConfig
            { publicSonar := true, sonarComponentKeys := some (S "ck"),
              sonarOrganization := none, sonarProjectKey := some (S "proj"),
              gitOrganization := none, repoName := S "repo" })
          { branch := some (S "main") })
        (S "componentKeys") = none ∧
    getParam
        (buildUrlParams
          (mkSetupConfig
            { publicSonar := true, sonarComponentKeys := some (S "ck"),
              sonarOrganization := none, sonarProjectKey := some (S "proj"),
              gitOrganization := none, repoName := S "repo" })
          { branch := some (S "main") })
        (S "organization") = none ∧
    getParam
        (buildUrlParams
          (mkSetupConfig
            { publicSonar := true, sonarComponentKeys := some (S "ck"),
              sonarOrganization := none, sonarProjectKey := some (S "proj"),
              gitOrganization := none, repoName := S "repo" })
          { branch := some (S "main") })
        (S "components") =
      (if strTruthy
            (builderComponent
              { publicSonar := true, sonarComponentKeys := some (S "ck"),
                sonarOrganization := none, sonarProjectKey := some (S "proj"),
                gitOrganization := none, repoName := S "repo" }) then
        some
          (builderComponent
            { publicSonar := true, sonarComponentKeys := some (S "ck"),
              sonarOrganization := none, sonarProjectKey := some (S "proj"),
              gitOrganization := none, repoName := S "repo" })
      else none) := by
  have h := mkSetupConfig_mode_demotion
    { publicSonar := true, sonarComponentKeys := some (S "ck"),
      sonarOrganization := none, sonarProjectKey := some (S "proj"),
      gitOrganization := none, repoName := S "repo" }
    { branch := some (S "main") }
  exact ⟨h.1, h.2 rfl (Or.inr (by decide))⟩

/-!
## `SonarIssueExtractor` (src/sonar/sonar-issue-extractor.ts)

PR detection, PR-link key extraction and response validation.  The branch
heuristic regex
`/(?:pr\/|PR\/|pull\/|PULL\/)(\d+)|(?:feat\/|feature\/|fix\/|bugfix\/).*?(\d+)/i`
is taken from the repository's inline variant of the extractor (the current
file imports it from `pr-detection-utils.ts`, whose unified source carries
the same pattern).  Network activity is abstracted into environment records;
a thrown JavaScript exception is an `Except.error`.
-/

/-- `Number.prototype.toString` for the PR ids read from JSON. -/
def natToStr (n : Nat) : Str := (Nat.repr n).data

/-- Case-insensitive prefix test, modelling a regex alternative under the
`i` flag (ASCII case folding). -/
def ciStartsWith : Str → Str → Bool
  | [], _ => true
  | _ :: _, [] => false
  | p :: ps, c :: cs => if p.toLower = c.toLower then ciStartsWith ps cs else false

/-- The lazy `.*?(\d+)` tail: the maximal digit run starting at the first
digit of the string, if any digit occurs. -/
def firstDigitRun : Str → Option Str
  | [] => none
  | c :: rest =>
    if c.isDigit then some ((c :: rest).takeWhile (fun x => x.isDigit))
    else firstDigitRun rest

/-- First regex alternative at one start position:
`(?:pr\/|PR\/|pull\/|PULL\/)(\d+)` under the `i` flag. -/
def prSlashAlt (s : Str) : Option Str :=
  if ciStartsWith (S "pr/") s then
    let d := (s.drop 3).takeWhile (fun x => x.isDigit)
    if d.isEmpty then none else some d
  else if ciStartsWith (S "pull/") s then
    let d := (s.drop 5).takeWhile (fun x => x.isDigit)
    if d.isEmpty then none else some d
  else none

/-- Second regex alternative at one start position:
`(?:feat\/|feature\/|fix\/|bugfix\/).*?(\d+)` under the `i` flag. -/
def featSlashAlt (s : Str) : Option Str :=
  if ciStartsWith (S "feat/") s then firstDigitRun (s.drop 5)
  else if ciStartsWith (S "feature/") s then firstDigitRun (s.drop 8)
  else if ciStartsWith (S "fix/") s then firstDigitRun (s.drop 4)
  else if ciStartsWith (S "bugfix/") s then firstDigitRun (s.drop 7)
  else none

/-- The branch-name heuristic: leftmost match of the PR-number regex, first
alternative preferred at each start position. -/
def extractPrNumberFromBranch : Str → Option Str
  | [] => none
  | c :: rest =>
    match prSlashAlt (c :: rest) with
    | some d => some d
    | none =>
      match featSlashAlt (c :: rest) with
      | some d => some d
      | none => extractPrNumberFromBranch rest

/-- `extractPrKeyFromLink` (src/sonar/sonar-issue-extractor.ts, 298-306):
leftmost match of `/pullRequest=([^&]+)/`, the capture being the maximal
nonempty run of non-`&` characters after `pullRequest=`. -/
def extractPrKeyFromLink : Str → Option Str
  | [] => none
  | c :: rest =>
    if startsWithC (S "pullRequest=") (c :: rest) then
      let key := ((c :: rest).drop 12).takeWhile (fun x => !(x = '&'))
      if key.isEmpty then extractPrKeyFromLink rest else some key
    else extractPrKeyFromLink rest

/-- A raw HTTP response as `handleSonarResponse` sees it: the declared
content type, the status, the raw body, and the JSON value of the body when
it parses (issues payload: an optional `issues` array). -/
structure SonarIssue where
  severity : Option Str
deriving DecidableEq

/-- The issues payload: a response body whose `issues` field may be absent. -/
structure SonarResponse where
  issues : Option (List SonarIssue)
deriving DecidableEq

/-- The raw response consumed by `handleSonarResponse`. -/
structure HttpResponse where
  contentType : Option Str
  status : Nat
  body : Str
  parsed : Option SonarResponse

/-- The failures `handleSonarResponse` can raise. -/
inductive SonarError where
  | unexpectedContentType (declared : Option Str) (status : Nat) (logPreview : Str)
  | httpError (status : Nat) (bodyExcerpt : Str)
  | jsonParseError
deriving DecidableEq

/-- `response.ok`: HTTP status in the success range. -/
def respOk (r : HttpResponse) : Bool := 200 ≤ r.status && r.status < 300

/-- Does the declared content type include `application/json`? -/
def ctIsJson (r : HttpResponse) : Bool :=
  match r.contentType with
  | none => false
  | some ct => strContains ct (S "application/json")

/-- `SonarIssueExtractor.handleSonarResponse`
(src/sonar/sonar-issue-extractor.ts, 261-280). -/
def handleSonarResponse (r : HttpResponse) : Except SonarError SonarResponse :=
  if !(ctIsJson r) then
    .error (.unexpectedContentType r.contentType r.status (r.body.take 500))
  else if !(respOk r) then
    .error (.httpError r.status (r.body.take 200))
  else
    match r.parsed with
    | some v => .ok v
    | none => .error .jsonParseError

/-- One provider API response as the GitHub PR detection sees it. -/
inductive GhResp where
  | netErr
  | notOk
  | okMalformed
  | okNonArray
  | okArray (nums : List Nat)
deriving DecidableEq

/-- The environment of `detectGitHubPrId`: credentials/coordinates and the
two responses (open PRs, then state=all). -/
structure GhEnv where
  gitToken : Option Str
  githubOwner : Option Str
  githubRepo : Option Str
  openResp : GhResp
  allResp : GhResp

/-- The `!this.gitToken || !this.githubOwner || !this.githubRepo` guard. -/
def ghCredsPresent (e : GhEnv) : Bool :=
  isTruthy e.gitToken && isTruthy e.githubOwner && isTruthy e.githubRepo

/-- The body of `detectGitHubPrId`
(src/sonar/sonar-issue-extractor.ts, 122-188) without its `catch`: an
`Except.error` is a thrown exception (unreachable endpoint or a body that is
not JSON). -/
def detectGitHubPrIdBody (e : GhEnv) (branch : Str) : Except Unit (Option Str) :=
  if !(ghCredsPresent e) then .ok none
  else
    match e.openResp with
    | .netErr => .error ()
    | .okMalformed => .error ()
    | .okArray (n :: _) => .ok (some (natToStr n))
    | _ =>
      match e.allResp with
      | .netErr => .error ()
      | .okMalformed => .error ()
      | .okArray (n :: _) => .ok (some (natToStr n))
      | _ => .ok (extractPrNumberFromBranch branch)

/-- `detectGitHubPrId`: the body under its `try/catch`; every thrown
exception is swallowed into `null`. -/
def detectGitHubPrId (e : GhEnv) (branch : Str) : Option Str :=
  match detectGitHubPrIdBody e branch with
  | .error _ => none
  | .ok v => v

/-- One provider API response as the Bitbucket PR detection sees it: the
JSON body holds an optional `values` array. -/
inductive BbResp where
  | netErr
  | notOk
  | okMalformed
  | okJson (values : Option (List Nat))
deriving DecidableEq

/-- The environment of `detectBitbucketPrId`. -/
structure BbEnv where
  gitEmail : Option Str
  gitToken : Option Str
  bitbucketBaseUrl : Option Str
  resp : BbResp

/-- The `!this.gitEmail || !this.gitToken || !this.bitbucketBaseUrl` guard. -/
def bbCredsPresent (e : BbEnv) : Bool :=
  isTruthy e.gitEmail && isTruthy e.gitToken && isTruthy e.bitbucketBaseUrl

/-- The body of `detectBitbucketPrId`
(src/sonar/sonar-issue-extractor.ts, 197-254) without its `catch`. -/
def detectBitbucketPrIdBody (e : BbEnv) (branch : Str) : Except Unit (Option Str) :=
  if !(bbCredsPresent e) then .ok none
  else
    match e.resp with
    | .netErr => .error ()
    | .okMalformed => .error ()
    | .okJson (some (n :: _)) => .ok (some (natToStr n))
    | _ => .ok (extractPrNumberFromBranch branch)

/-- `detectBitbucketPrId`: the body under its `try/catch`. -/
def detectBitbucketPrId (e : BbEnv) (branch : Str) : Option Str :=
  match detectBitbucketPrIdBody e branch with
  | .error _ => none
  | .ok v => v

/-!
## `fetchSonarIssues` orchestration (src/versioning/index.ts, 84-176)

The success-path control flow: PR link → auto-detected PR → current branch →
one "develop" fallback.  The network requests the run issues are logged as a
trace, the PR-detection call included, so skipping and fallback behaviour
are statements about the trace.
-/

/-- One observable step of a fetch run: the PR-detection call, an issues
query for a branch, or an issues query for a PR key/id. -/
inductive Query where
  | detectQ
  | branchQ (branch : Str)
  | prQ (key : Str)
deriving DecidableEq

/-- The failure `fetchSonarIssues` can hit before any request: an invalid
PR-link shape (`extractPrKeyFromLink` found nothing). -/
inductive FetchError where
  | invalidPrLink
deriving DecidableEq

/-- The environment of a fetch run: what PR detection returns, and the issues
payload every branch or PR query would yield. -/
structure FetchEnv where
  detectResult : Option Str
  branchResp : Str → SonarResponse
  prResp : Str → SonarResponse

/-- The `!issues.issues || issues.issues.length === 0` test. -/
def respEmpty (r : SonarResponse) : Bool :=
  match r.issues with
  | none => true
  | some l => l.isEmpty

/-- `fetchIssuesForPr` (src/sonar/sonar-issue-extractor.ts, 356-359): the PR
key is extracted from the link before any request; an invalid link raises the
configuration error with no query issued. -/
def fetchIssuesForPrModel (env : FetchEnv) (link : Str) :
    List Query × Except FetchError (SonarResponse × Str) :=
  match extractPrKeyFromLink link with
  | none => ([], .error .invalidPrLink)
  | some key => ([Query.prQ key], .ok (env.prResp key, S "PR: " ++ link))

/-- `fetchSonarIssues` (src/versioning/index.ts, 104-138): the trace of
queries issued, and the outcome (issues payload and the recorded source). -/
def fetchSonarIssuesModel (env : FetchEnv) (currentBranch : Str)
    (prLink : Option Str) : List Query × Except FetchError (SonarResponse × Str) :=
  if isTruthy prLink then
    fetchIssuesForPrModel env (prLink.getD [])
  else
    if isTruthy env.detectResult then
      let id := env.detectResult.getD []
      ([Query.detectQ, Query.prQ id],
        .ok (env.prResp id,
          S "PR #" ++ id ++ S " (auto-detected from branch: " ++ currentBranch ++ S ")"))
    else
      if respEmpty (env.branchResp currentBranch) then
        ([Query.detectQ, Query.branchQ currentBranch, Query.branchQ (S "develop")],
          .ok (env.branchResp (S "develop"), S "develop"))
      else
        ([Query.detectQ, Query.branchQ currentBranch],
          .ok (env.branchResp currentBranch, currentBranch))

/-- "Yields no PR" for a GitHub PR-list response: the fall-through cases of
the detection (non-2xx, JSON that is not an array, empty array). -/
def ghNoMatchB : GhResp → Bool
  | .notOk => true
  | .okNonArray => true
  | .okArray [] => true
  | _ => false

/-- "Yields no PR" for a Bitbucket PR-search response: non-2xx, missing
`values` field, or empty `values` array. -/
def bbNoMatchB : BbResp → Bool
  | .notOk => true
  | .okJson none => true
  | .okJson (some []) => true
  | _ => false

theorem extractPrKeyFromLink_eq_none {link : Str}
    (h : strContains link (S "pullRequest=") = false) :
    extractPrKeyFromLink link = none := by
  induction link with
  | nil => rfl
  | cons c rest ih =>
    rw [strContains] at h
    rcases Bool.or_eq_false_iff.mp h with ⟨h1, h2⟩
    rw [extractPrKeyFromLink, if_neg (by simp [h1])]
    exact ih h2

/-- C9: `handleSonarResponse` checks the declared content type before the
status — a non-JSON response, 2xx or not, fails with the content-type error
naming the declared type and status, the logged body preview bounded to 500
characters; a JSON response outside the success range fails with the HTTP
error whose body excerpt is bounded to 200 characters; otherwise the parsed
JSON payload is returned. -/
theorem handleSonarResponse_validation (r : HttpResponse) :
    (ctIsJson r = false →
      handleSonarResponse r =
        .error (.unexpectedContentType r.contentType r.status (r.body.take 500)) ∧
      (r.body.take 500).length ≤ 500) ∧
    (ctIsJson r = true → respOk r = false →
      handleSonarResponse r = .error (.httpError r.status (r.body.take 200)) ∧
      (r.body.take 200).length ≤ 200) ∧
    (∀ p, ctIsJson r = true → respOk r = true → r.parsed = some p →
      handleSonarResponse r = .ok p) := by
  refine ⟨fun hct => ⟨?_, List.length_take_le 500 r.body⟩,
    fun hct hok => ⟨?_, List.length_take_le 200 r.body⟩,
    fun p hct hok hp => ?_⟩
  · simp [handleSonarResponse, hct]
  · simp [handleSonarResponse, hct, hok]
  · simp [handleSonarResponse, hct, hok, hp]

/-- Witness for the response-validation theorem: a 403 HTML login page fails
with the content-type error, preview bounded; a JSON 500 fails with the HTTP
error; a JSON 200 with a parsed payload is returned as that payload. -/
theorem handleSonarResponse_validation_witness :
    (handleSonarResponse
        { contentType := some (S "text/html"), status := 403,
          body := S "<html>login</html>", parsed := none } =
      .error (.unexpectedContentType (some (S "text/html")) 403
        ((S "<html>login</html>").take 500)) ∧
      ((S "<html>login</html>").take 500).length ≤ 500) ∧
    (handleSonarResponse
        { contentType := some (S "application/json"), status := 500,
          body := S "{}", parsed := some { issues := none } } =
      .error (.httpError 500 ((S "{}").take 200)) ∧
      ((S "{}").take 200).length ≤ 200) ∧
    handleSonarResponse
        { contentType := some (S "application/json"), status := 200,
          body := S "{}", parsed := some { issues := some [] } } =
      .ok { issues := some [] } :=
  ⟨(handleSonarResponse_validation
      { contentType := some (S "text/html"), status := 403,
        body := S "<html>login</html>", parsed := none }).1 (by decide),
    (handleSonarResponse_validation
      { contentType := some (S "application/json"), status := 500,
        body := S "{}", parsed := some { issues := none } }).2.1 (by decide) (by decide),
    (handleSonarResponse_validation
      { contentType := some (S "application/json"), status := 200,
        body := S "{}", parsed := some { issues := some [] } }).2.2
      { issues := some [] } (by decide) (by decide) rfl⟩

/-- A GitHub detection environment with full credentials whose two PR-list
requests both come back non-2xx. -/
def ghEnvNotOk : GhEnv :=
  { gitToken := some (S "t"), githubOwner := some (S "o"), githubRepo := some (S "r"),
    openResp := .notOk, allResp := .notOk }

/-- C6 counterexample: with credentials present and both PR-list requests
answering non-2xx, `detectGitHubPrId` on branch `pr/123` does not return
null — the non-2xx responses fall through to the branch-name heuristic,
which extracts "123" — refuting the claim that every non-2xx response makes
detection return null. -/
theorem detectPr_non2xx_counterexample :
    detectGitHubPrId ghEnvNotOk (S "pr/123") = some (S "123") ∧
    ¬ detectGitHubPrId ghEnvNotOk (S "pr/123") = none := by
  decide

theorem detectGh_fallthrough (ge : GhEnv) (branch : Str)
    (hc : ghCredsPresent ge = true) (ho : ghNoMatchB ge.openResp = true)
    (ha : ghNoMatchB ge.allResp = true) :
    detectGitHubPrId ge branch = extractPrNumberFromBranch branch := by
  cases ho' : ge.openResp <;> rw [ho'] at ho <;> simp [ghNoMatchB] at ho <;>
    cases ha' : ge.allResp <;> rw [ha'] at ha <;> simp [ghNoMatchB] at ha <;>
    first
    | (rename_i l₁ l₂; cases l₁ <;> cases l₂ <;> simp [ghNoMatchB] at ho ha <;>
        simp [detectGitHubPrId, detectGitHubPrIdBody, hc, ho', ha'])
    | (rename_i l; cases l <;> simp [ghNoMatchB] at ho ha <;>
        simp [detectGitHubPrId, detectGitHubPrIdBody, hc, ho', ha'])
    | simp [detectGitHubPrId, detectGitHubPrIdBody, hc, ho', ha']

theorem detectBb_fallthrough (be : BbEnv) (branch : Str)
    (hc : bbCredsPresent be = true) (hr : bbNoMatchB be.resp = true) :
    detectBitbucketPrId be branch = extractPrNumberFromBranch branch := by
  cases hr' : be.resp with
  | netErr => rw [hr'] at hr; simp [bbNoMatchB] at hr
  | notOk => simp [detectBitbucketPrId, detectBitbucketPrIdBody, hc, hr']
  | okMalformed => rw [hr'] at hr; simp [bbNoMatchB] at hr
  | okJson values =>
    rw [hr'] at hr
    cases values with
    | none => simp [detectBitbucketPrId, detectBitbucketPrIdBody, hc, hr']
    | some l =>
      cases l with
      | nil => simp [detectBitbucketPrId, detectBitbucketPrIdBody, hc, hr']
      | cons n ns => simp [bbNoMatchB] at hr

/-- C6 amended: PR detection never propagates an exception.  Missing
credentials or coordinates return null before any request; a thrown network
error or a body that fails to parse as JSON is caught and null is returned;
a non-2xx or malformed (non-array / missing-values) response falls through
to the branch-name heuristic, whose match or null is the result — so a
detection failure never blocks the subsequent issues fetch. -/
theorem detectPr_never_raises (ge : GhEnv) (be : BbEnv) (branch : Str) :
    (ghCredsPresent ge = false → detectGitHubPrId ge branch = none) ∧
    (ge.openResp = .netErr → detectGitHubPrId ge branch = none) ∧
    (ge.openResp = .okMalformed → detectGitHubPrId ge branch = none) ∧
    (ghCredsPresent ge = true → ghNoMatchB ge.openResp = true →
      ghNoMatchB ge.allResp = true →
      detectGitHubPrId ge branch = extractPrNumberFromBranch branch) ∧
    (bbCredsPresent be = false → detectBitbucketPrId be branch = none) ∧
    (be.resp = .netErr → detectBitbucketPrId be branch = none) ∧
    (be.resp = .okMalformed → detectBitbucketPrId be branch = none) ∧
    (bbCredsPresent be = true → bbNoMatchB be.resp = true →
      detectBitbucketPrId be branch = extractPrNumberFromBranch branch) := by
  refine ⟨fun hc => ?_, fun ho => ?_, fun ho => ?_, fun hc ho ha => ?_,
    fun hc => ?_, fun hr => ?_, fun hr => ?_, fun hc hr => ?_⟩
  · simp [detectGitHubPrId, detectGitHubPrIdBody, hc]
  · cases hcr : ghCredsPresent ge <;>
      simp [detectGitHubPrId, detectGitHubPrIdBody, hcr, ho]
  · cases hcr : ghCredsPresent ge <;>
      simp [detectGitHubPrId, detectGitHubPrIdBody, hcr, ho]
  · exact detectGh_fallthrough ge branch hc ho ha
  · simp [detectBitbucketPrId, detectBitbucketPrIdBody, hc]
  · cases hcr : bbCredsPresent be <;>
      simp [detectBitbucketPrId, detectBitbucketPrIdBody, hcr, hr]
  · cases hcr : bbCredsPresent be <;>
      simp [detectBitbucketPrId, detectBitbucketPrIdBody, hcr, hr]
  · exact detectBb_fallthrough be branch hc hr

/-- Witness for the amended C6 theorem: missing GitHub credentials and a
Bitbucket network error both yield null detection. -/
theorem detectPr_never_raises_witness :
    detectGitHubPrId
        { gitToken := none, githubOwner := none, githubRepo := none,
          openResp := .netErr, allResp := .netErr } (S "pr/7") = none ∧
    detectBitbucketPrId
        { gitEmail := some (S "e"), gitToken := some (S "t"),
          bitbucketBaseUrl := some (S "b"), resp := .netErr } (S "pr/7") = none :=
  ⟨(detectPr_never_raises
      { gitToken := none, githubOwner := none, githubRepo := none,
        openResp := .netErr, allResp := .netErr }
      { gitEmail := some (S "e"), gitToken := some (S "t"),
        bitbucketBaseUrl := some (S "b"), resp := .netErr } (S "pr/7")).1 (by decide),
    (detectPr_never_raises
      { gitToken := none, githubOwner := none, githubRepo := none,
        openResp := .netErr, allResp := .netErr }
      { gitEmail := some (S "e"), gitToken := some (S "t"),
        bitbucketBaseUrl := some (S "b"), resp := .netErr } (S "pr/7")).2.2.2.2.2.1 rfl⟩

/-- C7: the API path takes precedence over the branch-name heuristic.  For
GitHub, a nonempty open-PR list answers with the first PR's id; when the
open query yields no PR, a nonempty state=all list answers with its first
id; the heuristic decides only when both queries yield no PR.  For
Bitbucket, a nonempty `values` list answers with its first id, and the
heuristic decides only when the query yields none. -/
theorem prDetection_api_over_heuristic (ge : GhEnv) (be : BbEnv) (branch : Str) :
    (∀ n ns, ghCredsPresent ge = true → ge.openResp = .okArray (n :: ns) →
      detectGitHubPrId ge branch = some (natToStr n)) ∧
    (∀ n ns, ghCredsPresent ge = true → ghNoMatchB ge.openResp = true →
      ge.allResp = .okArray (n :: ns) →
      detectGitHubPrId ge branch = some (natToStr n)) ∧
    (ghCredsPresent ge = true → ghNoMatchB ge.openResp = true →
      ghNoMatchB ge.allResp = true →
      detectGitHubPrId ge branch = extractPrNumberFromBranch branch) ∧
    (∀ n ns, bbCredsPresent be = true → be.resp = .okJson (some (n :: ns)) →
      detectBitbucketPrId be branch = some (natToStr n)) ∧
    (bbCredsPresent be = true → bbNoMatchB be.resp = true →
      detectBitbucketPrId be branch = extractPrNumberFromBranch branch) := by
  refine ⟨fun n ns hc ho => ?_, fun n ns hc ho ha => ?_, fun hc ho ha => ?_,
    fun n ns hc hr => ?_, fun hc hr => ?_⟩
  · simp [detectGitHubPrId, detectGitHubPrIdBody, hc, ho]
  · cases ho' : ge.openResp <;> rw [ho'] at ho <;> simp [ghNoMatchB] at ho
    · simp [detectGitHubPrId, detectGitHubPrIdBody, hc, ho', ha]
    · simp [detectGitHubPrId, detectGitHubPrIdBody, hc, ho', ha]
    · rename_i l
      cases l with
      | nil => simp [detectGitHubPrId, detectGitHubPrIdBody, hc, ho', ha]
      | cons m ms => simp [ghNoMatchB] at ho
  · exact detectGh_fallthrough ge branch hc ho ha
  · simp [detectBitbucketPrId, detectBitbucketPrIdBody, hc, hr]
  · exact detectBb_fallthrough be branch hc hr

/-- C1: on the plain-branch path (no PR link, no detected PR) the fetcher
queries the current branch; exactly when that response has a missing or
empty `issues` field it re-queries branch "develop" once — the whole trace
is the detection step, the branch query and one develop query — recording
source "develop"; otherwise the trace stops at the branch query with the
branch as source.  On the PR-link and detected-PR paths no branch query at
all is issued, so the develop fallback never fires there, and the trace
equality shows it never fires twice. -/
theorem fetchSonarIssues_develop_fallback (env : FetchEnv) (branch : Str)
    (prLink : Option Str) :
    ((isTruthy prLink = false ∧ isTruthy env.detectResult = false) →
      (respEmpty (env.branchResp branch) = true →
        fetchSonarIssuesModel env branch prLink =
          ([Query.detectQ, Query.branchQ branch, Query.branchQ (S "develop")],
            .ok (env.branchResp (S "develop"), S "develop"))) ∧
      (respEmpty (env.branchResp branch) = false →
        fetchSonarIssuesModel env branch prLink =
          ([Query.detectQ, Query.branchQ branch],
            .ok (env.branchResp branch, branch)))) ∧
    ((isTruthy prLink = true ∨ isTruthy env.detectResult = true) →
      ∀ b, Query.branchQ b ∉ (fetchSonarIssuesModel env branch prLink).1) := by
  constructor
  · rintro ⟨h1, h2⟩
    constructor <;> intro hr <;> simp [fetchSonarIssuesModel, h1, h2, hr]
  · intro h b
    by_cases h1 : isTruthy prLink = true
    · simp only [fetchSonarIssuesModel, h1, if_true, fetchIssuesForPrModel]
      cases extractPrKeyFromLink (prLink.getD []) <;> simp
    · have h1' : isTruthy prLink = false := by simpa using h1
      have h2 : isTruthy env.detectResult = true := by
        rcases h with h | h
        · exact absurd h h1
        · exact h
      simp [fetchSonarIssuesModel, h1', h2]

/-- The environment of the fallback scenario: no PR detected and every
branch query answering an empty issues list. -/
def envFallback : FetchEnv :=
  { detectResult := none, branchResp := fun _ => { issues := some [] },
    prResp := fun _ => { issues := some [] } }

/-- Witness for the fallback theorem: branch "feature/x" with zero issues
triggers exactly one develop re-query, with source "develop". -/
theorem fetchSonarIssues_develop_fallback_witness :
    fetchSonarIssuesModel envFallback (S "feature/x") none =
      ([Query.detectQ, Query.branchQ (S "feature/x"), Query.branchQ (S "develop")],
        .ok (envFallback.branchResp (S "develop"), S "develop")) :=
  ((fetchSonarIssues_develop_fallback envFallback (S "feature/x") none).1
    ⟨rfl, rfl⟩).1 rfl

/-- The PR link of the C8 scenario. -/
def prLinkAB12 : Str := S "https://sonarcloud.io/project/issues?id=p&pullRequest=AB-12"

/-- C8: fetching by PR link validates the link before any network activity.
A link with no `pullRequest=` substring fails with the invalid-link
configuration error and an empty request trace; for the scenario link the
extracted key is "AB-12" and the whole run trace is that single issues
query — no PR-detection step and no provider PR-listing request occurs. -/
theorem fetchIssuesForPr_link_validation :
    (∀ env : FetchEnv, ∀ link : Str, strContains link (S "pullRequest=") = false →
      fetchIssuesForPrModel env link = ([], .error .invalidPrLink)) ∧
    (∀ env : FetchEnv, ∀ branch : Str,
      extractPrKeyFromLink prLinkAB12 = some (S "AB-12") ∧
      fetchSonarIssuesModel env branch (some prLinkAB12) =
        ([Query.prQ (S "AB-12")],
          .ok (env.prResp (S "AB-12"), S "PR: " ++ prLinkAB12))) := by
  constructor
  · intro env link h
    simp [fetchIssuesForPrModel, extractPrKeyFromLink_eq_none h]
  · intro env branch
    refine ⟨by decide, ?_⟩
    rw [fetchSonarIssuesModel, if_pos (by decide)]
    simp only [Option.getD_some, fetchIssuesForPrModel]
    rw [show extractPrKeyFromLink prLinkAB12 = some (S "AB-12") from by decide]

/-- Witness for the link-validation theorem: a link without any
`pullRequest=` fragment yields the configuration error and no request. -/
theorem fetchIssuesForPr_link_validation_witness :
    fetchIssuesForPrModel envFallback (S "https://sonarcloud.io/project/issues?id=p") =
      ([], .error .invalidPrLink) :=
  fetchIssuesForPr_link_validation.1 envFallback
    (S "https://sonarcloud.io/project/issues?id=p") (by decide)

/-- Witness for the API-precedence theorem: an open-PR hit answers 7 even on
a branch whose name would let the heuristic extract 123, and a Bitbucket
`values` hit answers 9 likewise. -/
theorem prDetection_api_over_heuristic_witness :
    detectGitHubPrId
        { gitToken := some (S "t"), githubOwner := some (S "o"),
          githubRepo := some (S "r"), openResp := .okArray [7], allResp := .notOk }
        (S "pr/123") = some (S "7") ∧
    detectBitbucketPrId
        { gitEmail := some (S "e"), gitToken := some (S "t"),
          bitbucketBaseUrl := some (S "b"), resp := .okJson (some [9]) }
        (S "pr/123") = some (S "9") := by
  have h := prDetection_api_over_heuristic
    { gitToken := some (S "t"), githubOwner := some (S "o"),
      githubRepo := some (S "r"), openResp := .okArray [7], allResp := .notOk }
    { gitEmail := some (S "e"), gitToken := some (S "t"),
      bitbucketBaseUrl := some (S "b"), resp := .okJson (some [9]) }
    (S "pr/123")
  exact ⟨h.1 7 [] (by decide) rfl, h.2.2.2.1 9 [] (by decide) rfl⟩
